import Mathlib

/-!
Shallow embedding of the NASASA orbital-congestion / collision-risk program.

Sources embedded below:
  - src/satellite_tracker/utils.py   (TLE field decoder, altitude-to-mean-motion converter)
  - src/satellite_tracker/orbit.py   (internal altitude converter, congestion aggregator)
  - src/utils/risk_calculator.py     (Mode A steady risk, Mode B launch risk)

Python floats are modelled by exact rationals in the decoder (its claims are about
exact decimal decodes) and by real numbers in the converter / aggregator / risk
estimator (which use sqrt, pi and exp).
-/

namespace NASASA

/-! ### Model of CPython float() parsing

The decoder calls float() on tokens it slices or builds out of digits, signs,
a decimal point and the letter e.  The model below accepts exactly the float
literals of that shape: optional sign, digits with an optional decimal point
(at least one digit overall), and an optional exponent part consisting of the
letter e, an optional sign and at least one digit, with no trailing characters.
Inf/nan words, underscores and surrounding whitespace never occur in the
strings this program hands to float(), so they are not modelled.

A successfully parsed literal is kept as a triple (signed mantissa digits read
as an integer, number of fraction digits, exponent); its numeric value is
recovered at the very end by floatValue.  Keeping the parse result in integer
form keeps the whole decoder pipeline kernel-computable. -/

/-- Numeric value of a digit character. -/
def digitVal (c : Char) : ℕ := c.toNat - '0'.toNat

/-- Longest prefix of decimal digits, returned together with the rest. -/
def takeDigits : List Char → List Char × List Char
  | [] => ([], [])
  | c :: t =>
    if c.isDigit then
      let (d, r) := takeDigits t
      (c :: d, r)
    else ([], c :: t)

/-- Natural number denoted by a digit list (most significant first). -/
def digitsToNat (l : List Char) : ℕ := l.foldl (fun a c => 10 * a + digitVal c) 0

/-- Optional leading sign; returns whether the value is negated and the rest. -/
def takeSign : List Char → Bool × List Char
  | '-' :: t => (true, t)
  | '+' :: t => (false, t)
  | l => (false, l)

/-- Exponent suffix after the mantissa: either nothing, or the letter e with an
optional sign and a nonempty digit run consuming the whole rest. -/
def pyExponent : List Char → Option ℤ
  | [] => some 0
  | 'e' :: t =>
    let (neg, t1) := takeSign t
    let (d, r) := takeDigits t1
    if d = [] ∨ r ≠ [] then none
    else some (if neg then -(digitsToNat d : ℤ) else (digitsToNat d : ℤ))
  | 'E' :: t =>
    let (neg, t1) := takeSign t
    let (d, r) := takeDigits t1
    if d = [] ∨ r ≠ [] then none
    else some (if neg then -(digitsToNat d : ℤ) else (digitsToNat d : ℤ))
  | _ => none

/-- Model of CPython float() on the token shapes this program constructs;
none models a ValueError. -/
def pyFloatTriple (l : List Char) : Option (ℤ × ℕ × ℤ) :=
  let (neg, l1) := takeSign l
  let (ip, l2) := takeDigits l1
  let (fp, l3) :=
    match l2 with
    | '.' :: t => takeDigits t
    | _ => ([], l2)
  if ip = [] ∧ fp = [] then none
  else
    match pyExponent l3 with
    | none => none
    | some e =>
      let m : ℤ := (digitsToNat (ip ++ fp) : ℤ)
      some (if neg then -m else m, fp.length, e)

/-- Numeric value of a parse outcome; none (a caught ValueError or IndexError,
or an absent field) yields 0.0 as in the source. -/
def floatValue : Option (ℤ × ℕ × ℤ) → ℚ
  | none => 0
  | some (m, f, e) => (m : ℚ) / (10 : ℚ) ^ f * (10 : ℚ) ^ e

/-! ### String helpers used by parse_and_get_value (src/satellite_tracker/utils.py)

Python str.strip, str.replace with a one-character pattern, and str.split with a
one-character separator, over explicit character lists. -/

/-- Whitespace test for str.strip (TLE fields only ever contain spaces). -/
def isStripChar (c : Char) : Bool := c = ' ' ∨ c = '\t' ∨ c = '\n' ∨ c = '\r'

/-- Python str.strip. -/
def pyStrip (l : List Char) : List Char :=
  ((l.dropWhile isStripChar).reverse.dropWhile isStripChar).reverse

/-- Python str.replace with a single-character pattern. -/
def pyReplace (c : Char) (r : List Char) : List Char → List Char
  | [] => []
  | a :: t => if a = c then r ++ pyReplace c r t else a :: pyReplace c r t

/-- Python str.split with a single-character separator; the empty string splits
to one empty piece. -/
def pySplit (c : Char) : List Char → List (List Char)
  | [] => [[]]
  | a :: t =>
    if a = c then [] :: pySplit c t
    else
      match pySplit c t with
      | [] => [[a]]
      | h :: r => (a :: h) :: r

/-! ### parse_and_get_value (src/satellite_tracker/utils.py lines 9-42) -/

/-- Branch of parse_and_get_value reached when the token does not begin with a
sign-plus-point or a bare point: the embedded-sign (assumed-exponent) check,
falling through to float(raw_value). -/
def pyEmbeddedSign (raw : List Char) : Option (ℤ × ℕ × ℤ) :=
  if '-' ∈ raw.tail ∨ '+' ∈ raw.tail then
    let parts := pySplit 'e' (pyReplace '-' ['e', '-'] (pyReplace '+' ['e', '+'] raw))
    match parts with
    | [p0, p1, p2] =>
      if p0 = [] then
        pyFloatTriple (['-', '0', '.'] ++ p1 ++ ['e', '-'] ++ p2)
      else pyFloatTriple raw
    | [p0, p1] =>
      if 1 < p0.length then
        pyFloatTriple (['0', '.'] ++ p0.dropLast ++ ['e', p0.getLastD '?'] ++ p1)
      else pyFloatTriple (['0', '.'] ++ p0 ++ ['e', '-'] ++ p1)
    | _ => pyFloatTriple raw
  else pyFloatTriple raw

/-- Body of parse_and_get_value applied to the stripped token; none stands for
the paths on which the source returns 0.0 (empty field, caught IndexError on a
lone sign, caught ValueError from float()). -/
def pyParseTokenRaw : List Char → Option (ℤ × ℕ × ℤ)
  | [] => none
  | '-' :: rest =>
    match rest with
    | [] => none
    | c1 :: _ =>
      if c1 = '.' then pyFloatTriple ('-' :: '0' :: rest)
      else pyEmbeddedSign ('-' :: rest)
  | '+' :: rest =>
    match rest with
    | [] => none
    | c1 :: _ =>
      if c1 = '.' then pyFloatTriple ('0' :: rest)
      else pyEmbeddedSign ('+' :: rest)
  | '.' :: rest => pyFloatTriple ('0' :: '.' :: rest)
  | c :: rest => pyEmbeddedSign (c :: rest)

/-- Column slice line[start-1:end] of the source, stripped.  The source
documents a 1-indexed inclusive column contract, so start is at least 1. -/
def rawToken (line : String) (start stop : ℕ) : List Char :=
  pyStrip ((line.data.drop (start - 1)).take (stop - (start - 1)))

/-- Embedding of parse_and_get_value: extract the column range, strip it, and
decode it with the implicit-decimal / assumed-exponent special cases. -/
def parse_and_get_value (line : String) (start stop : ℕ) : ℚ :=
  floatValue (pyParseTokenRaw (rawToken line start stop))

/-! ### Altitude to mean motion (src/satellite_tracker/utils.py lines 45-70 and
src/satellite_tracker/orbit.py lines 15-36)

Both modules define the same two constants with identical values; they are
declared once here and shared.  Each converter guards its altitude, computes
the Kepler period 2*pi*sqrt(r^3/mu) and returns 86400/period.  The source
returns float("inf") when the period is exactly zero; that branch is
unreachable (the period is strictly positive whenever it is reached, proved
below), and the embedding puts 0 there as an arbitrary stand-in for the
never-produced sentinel.  The try/except ValueError around sqrt is likewise
unreachable (the radicand is positive under the guard) and is not modelled. -/

/-- Standard gravitational parameter of Earth, km^3/s^2 (both modules). -/
noncomputable def MU_KM3_PER_S2 : ℝ := 398600.4418

/-- Mean equatorial Earth radius, km (both modules). -/
noncomputable def EARTH_RADIUS_KM : ℝ := 6378.137

/-- Embedding of utils.altitude_to_mean_motion: guard is altitude_km <= 0. -/
noncomputable def altitude_to_mean_motion (altitude_km : ℝ) : ℝ :=
  if altitude_km ≤ 0 then 0
  else
    let orbital_radius_km := EARTH_RADIUS_KM + altitude_km
    let period_seconds := 2 * Real.pi * Real.sqrt (orbital_radius_km ^ 3 / MU_KM3_PER_S2)
    if period_seconds = 0 then 0 else 86400 / period_seconds

/-- Embedding of orbit._altitude_to_mean_motion: guard is altitude_km < 0. -/
noncomputable def orbit_altitude_to_mean_motion (altitude_km : ℝ) : ℝ :=
  if altitude_km < 0 then 0
  else
    let orbital_radius_km := EARTH_RADIUS_KM + altitude_km
    let period_seconds := 2 * Real.pi * Real.sqrt (orbital_radius_km ^ 3 / MU_KM3_PER_S2)
    if period_seconds = 0 then 0 else 86400 / period_seconds

/-! ### Collision risk estimator (src/utils/risk_calculator.py) -/

/-- Earth radius constant of src/utils/risk_calculator.py (6371.0, not the
6378.137 used by the satellite_tracker modules). -/
noncomputable def R_EARTH_KM : ℝ := 6371.0

/-- Seconds in one 365-day year (src/utils/risk_calculator.py). -/
noncomputable def SEC_PER_YEAR : ℝ := 31536000

/-- Return value of the two risk estimators.  The Python functions are
annotated to return a dict with the keys financial_risk and collision_risk,
but on the degenerate-volume path they return the bare float 0.0; the two
shapes are modelled as the two constructors. -/
inductive RiskReturn where
  | dict (financial_risk : ℝ) (collision_risk : ℝ)
  | float (value : ℝ)

/-- Collision-risk component of a returned value: the collision_risk entry of
a dict result, or the bare float itself. -/
def RiskReturn.risk : RiskReturn → ℝ
  | .dict _ cr => cr
  | .float v => v

/-- Model of Python round(x, 2); round in Lean rounds half away from even
while CPython rounds half to even, but no theorem below depends on ties. -/
noncomputable def pyRound2 (x : ℝ) : ℝ := (round (100 * x) : ℤ) / 100

/-- Embedding of calculate_collision_financial_risk (Mode A, lines 10-89):
shell volume from radius 6371.0, guard on non-positive volume returning the
bare float 0.0, lambda with A_effective divided by 1000, financial risk
rounded to 2 decimals. -/
noncomputable def calculate_collision_financial_risk
    (N_objects H_upper H_lower V_rel A_effective T_years C_full D_lost : ℝ) : RiskReturn :=
  let R_upper := R_EARTH_KM + H_upper
  let R_lower := R_EARTH_KM + H_lower
  let V_shell := (4 / 3) * Real.pi * (R_upper ^ 3 - R_lower ^ 3)
  if V_shell ≤ 0 then .float 0.0
  else
    let density := N_objects / V_shell
    let T_seconds := T_years * SEC_PER_YEAR
    let expected_collisions := density * V_rel * (A_effective / 1000) * T_seconds
    let P_collision := 1.0 - Real.exp (-expected_collisions)
    let total_cost_at_risk := C_full + D_lost
    .dict (pyRound2 (P_collision * total_cost_at_risk)) P_collision

/-- Embedding of calculate_launch_collision_risk (Mode B, lines 92-154):
corridor volume from the surface up to R_EARTH_KM + H_ascent, same guard,
lambda with A_rocket divided by 1000000, duration already in seconds. -/
noncomputable def calculate_launch_collision_risk
    (N_objects H_ascent V_rel A_rocket T_seconds C_total_loss : ℝ) : RiskReturn :=
  let R_upper := R_EARTH_KM + H_ascent
  let V_corridor := (4 / 3) * Real.pi * (R_upper ^ 3 - R_EARTH_KM ^ 3)
  if V_corridor ≤ 0 then .float 0.0
  else
    let density := N_objects / V_corridor
    let expected_collisions := density * V_rel * (A_rocket / 1000000) * T_seconds
    let P_collision := 1.0 - Real.exp (-expected_collisions)
    .dict (pyRound2 (P_collision * C_total_loss)) P_collision

/-! ### Congestion aggregator (src/satellite_tracker/orbit.py lines 39-124)

The aggregator consumes dicts with name, line1 and line2.  It hands line1 and
line2 to Skyfield's EarthSatellite and reads mean motion (converted from
no_kozai to revolutions per day) and inclination (converted from inclo to
degrees) off the model.  Skyfield is an external library (out of scope for the
core), so the pair it would produce for a record is carried as data on the
record itself, with none standing for the exception path that the source
catches and skips.  After the Skyfield call the source is: skip falsy line1 or
line2, filter by the translated mean-motion window and by the inclination
window (both inclusive), bin by (round(mean_motion, 1), int(round(incl))),
and update the cell's count and running means in insertion order. -/

/-- Input record of the aggregator. -/
structure SatData where
  name : Option String
  line1 : Option String
  line2 : Option String
  /-- Mean motion (rev/day) and inclination (degrees) that Skyfield's
  EarthSatellite model yields for this record; none models the exception
  path (a record whose TLE lines Skyfield cannot process). -/
  decoded : Option (ℝ × ℝ)

/-- Python truthiness of an optional string: None and the empty string are
falsy. -/
def strFalsy : Option String → Prop
  | none => True
  | some s => s = ""

instance : DecidablePred strFalsy := by
  intro o
  cases o with
  | none => exact .isTrue trivial
  | some s => exact inferInstanceAs (Decidable (s = ""))

/-- Congestion cell payload: count and the two running means. -/
structure CellData where
  count : ℕ
  avg_inclination : ℝ
  avg_mean_motion : ℝ

/-- Cell key: (mean-motion bin, inclination bin). -/
abbrev CellKey := ℝ × ℤ

/-- Congestion map, keyed by cell, in insertion order as a Python dict. -/
abbrev CongestionMap := List (CellKey × CellData)

/-- Model of Python round(x, 1) for the mean-motion bin; ties differ from
CPython (half to even) but no theorem below depends on a tie. -/
noncomputable def pyRound1 (x : ℝ) : ℝ := (round (10 * x) : ℤ) / 10

/-- Cell key of a sample: round(mean_motion, 1) and int(round(inclination)). -/
noncomputable def cellKey (mm incl : ℝ) : CellKey := (pyRound1 mm, round incl)

/-- Fresh cell as created by the source before its first update. -/
def initCell : CellData := ⟨0, 0, 0⟩

/-- One update of a cell: increment the count and fold the sample into the two
running means, exactly as lines 106-117 of orbit.py. -/
noncomputable def stepCell (c : CellData) (incl mm : ℝ) : CellData :=
  let current_count := c.count
  let new_count := current_count + 1
  ⟨new_count,
   (c.avg_inclination * (current_count : ℝ) + incl) / (new_count : ℝ),
   (c.avg_mean_motion * (current_count : ℝ) + mm) / (new_count : ℝ)⟩

/-- Dict update congestion_map[cell_key]: update the entry in place if the key
exists, otherwise append a freshly initialised and updated cell. -/
noncomputable def insertSample : CongestionMap → CellKey → ℝ → ℝ → CongestionMap
  | [], k, incl, mm => [(k, stepCell initCell incl mm)]
  | (k0, c0) :: rest, k, incl, mm =>
    if k0 = k then (k0, stepCell c0 incl mm) :: rest
    else (k0, c0) :: insertSample rest k incl mm

/-- Dict lookup by key. -/
noncomputable def lookupCell (k : CellKey) : CongestionMap → Option CellData
  | [] => none
  | (k0, c0) :: rest => if k0 = k then some c0 else lookupCell k rest

/-- Per-record outcome of the skip-and-filter steps of the loop body: the
(mean motion, inclination) sample of a record that survives the falsy-line
skip, the Skyfield exception skip and the two inclusive window filters. -/
noncomputable def recordInfo (minF maxF minI maxI : ℝ) (s : SatData) :
    Option (ℝ × ℝ) :=
  if strFalsy s.line1 ∨ strFalsy s.line2 then none
  else
    match s.decoded with
    | none => none
    | some (mm, incl) =>
      if minF ≤ mm ∧ mm ≤ maxF then
        if minI ≤ incl ∧ incl ≤ maxI then some (mm, incl) else none
      else none

/-- Aggregation loop over the batch, starting from an accumulator map. -/
noncomputable def buildMap (minF maxF minI maxI : ℝ)
    (recs : List SatData) (m0 : CongestionMap) : CongestionMap :=
  recs.foldl
    (fun m s =>
      match recordInfo minF maxF minI maxI s with
      | none => m
      | some (mm, incl) => insertSample m (cellKey mm incl) incl mm)
    m0

/-- Embedding of calculate_orbit_congestion_by_altitude: translate the
altitude window into a mean-motion window (minimum altitude gives the upper
bound, maximum altitude the lower bound) and aggregate.  The source returns
only this map; the pair documented by its callers is not returned. -/
noncomputable def calculate_orbit_congestion_by_altitude
    (recs : List SatData) (min_altitude_km max_altitude_km : ℝ)
    (min_inclination max_inclination : ℝ) : CongestionMap :=
  let max_mean_motion_filter := orbit_altitude_to_mean_motion min_altitude_km
  let min_mean_motion_filter := orbit_altitude_to_mean_motion max_altitude_km
  buildMap min_mean_motion_filter max_mean_motion_filter
    min_inclination max_inclination recs []

/-- Samples of the records kept by the aggregator's filters, in input order. -/
noncomputable def keptInfos (minF maxF minI maxI : ℝ) (recs : List SatData) :
    List (ℝ × ℝ) :=
  recs.filterMap (recordInfo minF maxF minI maxI)

/-- Modelled from the spec: the filtered_records list that the aggregation
contract says is returned alongside the map (the records kept by the same
skip-and-filter steps).  The source function computes this filter record by
record but does not return the list. -/
noncomputable def keptRecords (recs : List SatData)
    (min_altitude_km max_altitude_km min_inclination max_inclination : ℝ) :
    List SatData :=
  recs.filter fun s =>
    (recordInfo (orbit_altitude_to_mean_motion max_altitude_km)
      (orbit_altitude_to_mean_motion min_altitude_km)
      min_inclination max_inclination s).isSome

/-- Total of the count entries over all cells of a map. -/
def sumCounts (m : CongestionMap) : ℕ := (m.map fun e => e.2.count).sum

/-- Samples assigned to one cell key among the kept records of a call. -/
noncomputable def assignedInfos (recs : List SatData)
    (min_altitude_km max_altitude_km min_inclination max_inclination : ℝ)
    (k : CellKey) : List (ℝ × ℝ) :=
  (keptInfos (orbit_altitude_to_mean_motion max_altitude_km)
      (orbit_altitude_to_mean_motion min_altitude_km)
      min_inclination max_inclination recs).filter
    fun p => cellKey p.1 p.2 = k

/-- Formalisation of the collision-risk formula exactly as the specification
claims it for Mode A: the cross-section used directly (no further scaling)
and the shell volume computed with Earth radius 6378.137.  Declared only to
be compared against the embedded source function. -/
noncomputable def spec_steady_collision_risk (N Hu Hl Vrel A T : ℝ) : ℝ :=
  1 - Real.exp
    (-(N / ((4 / 3) * Real.pi * ((6378.137 + Hu) ^ 3 - (6378.137 + Hl) ^ 3)) *
      Vrel * A * (T * 31536000)))

/-- Replay of the cell updates that a list of (mean motion, inclination)
samples hitting one fixed key performs on that key's cell. -/
noncomputable def applyHits : Option CellData → List (ℝ × ℝ) → Option CellData
  | o, [] => o
  | o, p :: t => applyHits (some (stepCell (o.getD initCell) p.2 p.1)) t

/-- Statistics invariant tying a cell to the samples folded into it: the
count is the number of samples and each running mean times the count is the
corresponding sample sum. -/
def MeanInv (c : CellData) (L : List (ℝ × ℝ)) : Prop :=
  c.count = L.length ∧
  c.avg_inclination * (c.count : ℝ) = (L.map Prod.snd).sum ∧
  c.avg_mean_motion * (c.count : ℝ) = (L.map Prod.fst).sum

/-! ## Helper lemmas: the converters -/

/-- Orbital radius is positive for nonnegative altitudes. -/
lemma earth_radius_add_pos {h : ℝ} (hh : 0 ≤ h) : 0 < EARTH_RADIUS_KM + h := by
  have : (0 : ℝ) < 6378.137 + h := by linarith
  simpa [EARTH_RADIUS_KM] using this

/-- Kepler period of the converters is positive for nonnegative altitudes, so
the float("inf") branch of both converters is unreachable. -/
lemma kepler_period_pos {h : ℝ} (hh : 0 ≤ h) :
    0 < 2 * Real.pi * Real.sqrt ((EARTH_RADIUS_KM + h) ^ 3 / MU_KM3_PER_S2) := by
  have hr : 0 < EARTH_RADIUS_KM + h := earth_radius_add_pos hh
  have hmu : (0 : ℝ) < MU_KM3_PER_S2 := by
    simp only [MU_KM3_PER_S2]; norm_num
  have harg : 0 < (EARTH_RADIUS_KM + h) ^ 3 / MU_KM3_PER_S2 :=
    div_pos (pow_pos hr 3) hmu
  have hπ : (0 : ℝ) < Real.pi := Real.pi_pos
  have := Real.sqrt_pos.mpr harg
  positivity

/-- Closed form of the aggregator's internal converter off the guard. -/
lemma orbit_converter_eq {h : ℝ} (hh : 0 ≤ h) :
    orbit_altitude_to_mean_motion h =
      86400 / (2 * Real.pi * Real.sqrt ((EARTH_RADIUS_KM + h) ^ 3 / MU_KM3_PER_S2)) := by
  rw [orbit_altitude_to_mean_motion, if_neg (not_lt.mpr hh),
    if_neg (ne_of_gt (kepler_period_pos hh))]

/-- The aggregator's internal converter is positive for nonnegative
altitudes, including altitude exactly 0. -/
lemma orbit_converter_pos {h : ℝ} (hh : 0 ≤ h) :
    0 < orbit_altitude_to_mean_motion h := by
  rw [orbit_converter_eq hh]
  exact div_pos (by norm_num) (kepler_period_pos hh)

/-! ## Claims C6 and C10: the two altitude converters at and around zero -/

/-- C6 counterexample: the claim says both implementations return 0.0 for
every altitude at most 0 including altitude exactly 0, but the aggregator's
internal converter guards only altitudes strictly below 0 and returns a
positive mean motion at altitude exactly 0. -/
theorem orbit_converter_nonzero_at_zero_altitude :
    orbit_altitude_to_mean_motion 0 ≠ 0 :=
  ne_of_gt (orbit_converter_pos le_rfl)

/-- C6 amended: the standalone utils converter returns 0.0 for every altitude
at most 0 (including exactly 0), while the aggregator's internal converter
returns 0.0 only for altitudes strictly below 0 and returns a positive value
at altitude exactly 0. -/
theorem converter_sentinel_guards :
    (∀ h : ℝ, h ≤ 0 → altitude_to_mean_motion h = 0) ∧
    (∀ h : ℝ, h < 0 → orbit_altitude_to_mean_motion h = 0) ∧
    0 < orbit_altitude_to_mean_motion 0 := by
  refine ⟨fun h hh => ?_, fun h hh => ?_, orbit_converter_pos le_rfl⟩
  · rw [altitude_to_mean_motion, if_pos hh]
  · rw [orbit_altitude_to_mean_motion, if_pos hh]

/-- C6 witness: the all-hypothesis parts of the amended claim at altitude 0
for the utils converter and altitude -1 for the aggregator's converter. -/
theorem converter_sentinel_guards_witness :
    altitude_to_mean_motion 0 = 0 ∧ orbit_altitude_to_mean_motion (-1) = 0 :=
  ⟨converter_sentinel_guards.1 0 le_rfl,
   converter_sentinel_guards.2.1 (-1) (by norm_num)⟩

/-- C10 counterexample: the two implementations disagree at altitude exactly
0, where the utils converter returns the 0.0 sentinel and the aggregator's
internal converter computes a positive mean motion. -/
theorem converters_disagree_at_zero :
    altitude_to_mean_motion 0 ≠ orbit_altitude_to_mean_motion 0 := by
  have h1 : altitude_to_mean_motion 0 = 0 := by
    rw [altitude_to_mean_motion, if_pos le_rfl]
  rw [h1]
  exact (ne_of_gt (orbit_converter_pos le_rfl)).symm

/-- C10 amended: away from altitude exactly 0 the two implementations agree:
both return 0.0 for negative altitudes and both evaluate the identical Kepler
formula with the shared constants for positive altitudes. -/
theorem converters_agree_off_zero (h : ℝ) (hne : h ≠ 0) :
    altitude_to_mean_motion h = orbit_altitude_to_mean_motion h := by
  rcases lt_or_gt_of_ne hne with hlt | hgt
  · rw [altitude_to_mean_motion, if_pos hlt.le,
      orbit_altitude_to_mean_motion, if_pos hlt]
  · rw [altitude_to_mean_motion, if_neg (not_le.mpr hgt),
      orbit_altitude_to_mean_motion, if_neg (not_lt.mpr hgt.le)]

/-- C10 witness: the two converters agree at altitude 1 km. -/
theorem converters_agree_off_zero_witness :
    altitude_to_mean_motion 1 = orbit_altitude_to_mean_motion 1 :=
  converters_agree_off_zero 1 (by norm_num)

/-! ## Claims C7 and C4: the fixed-column decoder -/

/-- C7: the decoder returns 14.2719 for the full-width token over columns 1-8,
inserts the implied leading zero on the implicit-decimal token -.1234, and
returns 0.0 whenever the requested column range is empty or all spaces after
trimming. -/
theorem decoder_basic_decodes :
    parse_and_get_value " 14.2719" 1 8 = 14.2719 ∧
    parse_and_get_value "-.1234" 1 6 = -0.1234 ∧
    (∀ (line : String) (start stop : ℕ),
      rawToken line start stop = [] → parse_and_get_value line start stop = 0) := by
  refine ⟨?_, ?_, fun line start stop hblank => ?_⟩
  · have h : pyParseTokenRaw (rawToken " 14.2719" 1 8) = some (142719, 4, 0) := by decide
    rw [parse_and_get_value, h]
    norm_num [floatValue]
  · have h : pyParseTokenRaw (rawToken "-.1234" 1 6) = some (-1234, 4, 0) := by decide
    rw [parse_and_get_value, h]
    norm_num [floatValue]
  · rw [parse_and_get_value, hblank]
    rfl

/-- C7 witness: the blank-field part of the claim applied to an all-space
field and to an out-of-range column slice. -/
theorem decoder_basic_decodes_witness :
    parse_and_get_value "    " 1 4 = 0 ∧ parse_and_get_value "abc" 5 9 = 0 :=
  ⟨decoder_basic_decodes.2.2 "    " 1 4 (by decide),
   decoder_basic_decodes.2.2 "abc" 5 9 (by decide)⟩

/-- C4: evaluation of the decoder at the assumed-exponent failing inputs.
The source comment says the token 12345-6 decodes to 0.12345e-6, but the
branch builds the string 0.1234e5-6, whose float() parse fails, so the caught
ValueError makes the decoder return 0.0; the leading-sign token -12345-6
likewise builds -0.-12345e--6 and returns 0.0. -/
theorem assumed_exponent_tokens_decode_to_zero :
    parse_and_get_value "12345-6" 1 7 = 0 ∧
    parse_and_get_value "-12345-6" 1 8 = 0 := by
  constructor <;> decide

/-! ## Helper lemmas: the risk estimator -/

/-- Mode A off the degenerate-volume guard: the exact dict the source builds,
with the code's constants spelled out (Earth radius 6371.0, cross-section
divided by 1000, 31536000 seconds per year). -/
lemma modeA_dict_eq (N Hu Hl Vrel A T C D : ℝ) (hlt : Hl < Hu) :
    calculate_collision_financial_risk N Hu Hl Vrel A T C D =
      .dict
        (pyRound2 ((1 - Real.exp
            (-(N / ((4 / 3) * Real.pi * ((6371 + Hu) ^ 3 - (6371 + Hl) ^ 3)) * Vrel *
              (A / 1000) * (T * 31536000)))) * (C + D)))
        (1 - Real.exp
          (-(N / ((4 / 3) * Real.pi * ((6371 + Hu) ^ 3 - (6371 + Hl) ^ 3)) * Vrel *
            (A / 1000) * (T * 31536000)))) := by
  have hcube : (R_EARTH_KM + Hl) ^ 3 < (R_EARTH_KM + Hu) ^ 3 :=
    Odd.strictMono_pow (by decide) (by linarith)
  have hV : 0 < (4 / 3) * Real.pi *
      ((R_EARTH_KM + Hu) ^ 3 - (R_EARTH_KM + Hl) ^ 3) :=
    mul_pos (mul_pos (by norm_num) Real.pi_pos) (sub_pos.mpr hcube)
  rw [calculate_collision_financial_risk, if_neg (not_le.mpr hV)]
  norm_num [R_EARTH_KM, SEC_PER_YEAR]

/-- Mode B off the degenerate-volume guard: the exact dict the source builds
(corridor volume from radius 6371.0, cross-section divided by 1000000,
duration used directly). -/
lemma modeB_dict_eq (N H Vrel A T C : ℝ) (hH : 0 < H) :
    calculate_launch_collision_risk N H Vrel A T C =
      .dict
        (pyRound2 ((1 - Real.exp
            (-(N / ((4 / 3) * Real.pi * ((6371 + H) ^ 3 - (6371 : ℝ) ^ 3)) * Vrel *
              (A / 1000000) * T))) * C))
        (1 - Real.exp
          (-(N / ((4 / 3) * Real.pi * ((6371 + H) ^ 3 - (6371 : ℝ) ^ 3)) * Vrel *
            (A / 1000000) * T))) := by
  have hR : (0 : ℝ) ≤ R_EARTH_KM := by simp [R_EARTH_KM]; norm_num
  have hcube : R_EARTH_KM ^ 3 < (R_EARTH_KM + H) ^ 3 :=
    pow_lt_pow_left₀ (by linarith) hR (by norm_num)
  have hV : 0 < (4 / 3) * Real.pi * ((R_EARTH_KM + H) ^ 3 - R_EARTH_KM ^ 3) :=
    mul_pos (mul_pos (by norm_num) Real.pi_pos) (sub_pos.mpr hcube)
  rw [calculate_launch_collision_risk, if_neg (not_le.mpr hV)]
  norm_num [R_EARTH_KM]

/-! ## Claim C2: degenerate volumes return the bare float 0.0 -/

/-- C2: at the spec's degenerate Mode A input (equal upper and lower
altitudes) and at a zero ascent ceiling for Mode B, both estimators take the
non-positive-volume branch and return the bare float 0.0 rather than a dict
with financial_risk and collision_risk entries. -/
theorem degenerate_volume_returns_bare_float :
    calculate_collision_financial_risk 100 400 400 12.5 1e-5 5 1000000 500000 =
      .float 0 ∧
    calculate_launch_collision_risk 100 0 12.5 15.8 540 1800.75 = .float 0 := by
  constructor
  · rw [calculate_collision_financial_risk, if_pos (by simp)]
    norm_num
  · rw [calculate_launch_collision_risk, if_pos (by simp)]
    norm_num

/-! ## Claim C1: the Mode A collision-risk formula -/

/-- C1 counterexample: at N = 1, H_upper = 1, H_lower = 0, V_rel = 1,
A_effective = 1, T_years = 1 the collision risk the source returns differs
from the claimed formula, because the source divides the cross-section by
1000 and uses Earth radius 6371.0 instead of 6378.137. -/
theorem modeA_risk_deviates_from_spec_formula :
    (calculate_collision_financial_risk 1 1 0 1 1 1 0 0).risk ≠
      spec_steady_collision_risk 1 1 0 1 1 1 := by
  rw [modeA_dict_eq 1 1 0 1 1 1 0 0 (by norm_num), spec_steady_collision_risk]
  simp only [RiskReturn.risk]
  intro hEq
  have h1 : Real.exp
        (-(1 / ((4 / 3) * Real.pi * ((6371 + 1) ^ 3 - (6371 + 0) ^ 3)) * 1 *
          ((1 : ℝ) / 1000) * (1 * 31536000))) =
      Real.exp
        (-(1 / ((4 / 3) * Real.pi * ((6378.137 + 1) ^ 3 - (6378.137 + 0) ^ 3)) * 1 *
          (1 : ℝ) * (1 * 31536000))) := by linarith
  have h2 := Real.exp_injective h1
  have hD1 : ((6371 : ℝ) + 1) ^ 3 - (6371 + 0) ^ 3 ≠ 0 := by norm_num
  have hD2 : ((6378.137 : ℝ) + 1) ^ 3 - (6378.137 + 0) ^ 3 ≠ 0 := by norm_num
  have hπ := Real.pi_ne_zero
  field_simp at h2
  nlinarith [Real.pi_pos, h2]

/-- C1 corrected: for H_upper above H_lower, the returned collision risk is
the Poisson expression with the code's own constants: shell volume from Earth
radius 6371.0 (not 6378.137) and the cross-section scaled by 1/1000 (not used
directly). -/
theorem modeA_collision_risk_formula (N Hu Hl Vrel A T C D : ℝ) (hlt : Hl < Hu) :
    (calculate_collision_financial_risk N Hu Hl Vrel A T C D).risk =
      1 - Real.exp
        (-(N / ((4 / 3) * Real.pi * ((6371 + Hu) ^ 3 - (6371 + Hl) ^ 3)) * Vrel *
          (A / 1000) * (T * 31536000))) := by
  rw [modeA_dict_eq N Hu Hl Vrel A T C D hlt]
  rfl

/-- C1 witness: the corrected formula instantiated at concrete inputs. -/
theorem modeA_collision_risk_formula_witness :
    (calculate_collision_financial_risk 1 2 1 1 1 1 1 1).risk =
      1 - Real.exp
        (-(1 / ((4 / 3) * Real.pi * ((6371 + 2) ^ 3 - ((6371 : ℝ) + 1) ^ 3)) * 1 *
          ((1 : ℝ) / 1000) * (1 * 31536000))) :=
  modeA_collision_risk_formula 1 2 1 1 1 1 1 1 (by norm_num)

/-! ## Claim C8: Mode B risk in the duration -/

/-- C8: with positive object count, ascent ceiling, relative velocity and
cross-section fixed, the returned collision risk is strictly increasing in
the transit duration and tends to 1 as the duration grows without bound. -/
theorem launch_risk_monotone_in_duration (N H Vrel A C : ℝ)
    (hN : 0 < N) (hH : 0 < H) (hV : 0 < Vrel) (hA : 0 < A) :
    StrictMono (fun T => (calculate_launch_collision_risk N H Vrel A T C).risk) ∧
    Filter.Tendsto (fun T => (calculate_launch_collision_risk N H Vrel A T C).risk)
      Filter.atTop (nhds 1) := by
  have hVc : 0 < (4 / 3) * Real.pi * ((6371 + H) ^ 3 - (6371 : ℝ) ^ 3) := by
    refine mul_pos (mul_pos (by norm_num) Real.pi_pos) (sub_pos.mpr ?_)
    exact pow_lt_pow_left₀ (by linarith) (by norm_num) (by norm_num)
  have hcpos :
      0 < N / ((4 / 3) * Real.pi * ((6371 + H) ^ 3 - (6371 : ℝ) ^ 3)) * Vrel *
        (A / 1000000) :=
    mul_pos (mul_pos (div_pos hN hVc) hV) (div_pos hA (by norm_num))
  have hfun : (fun T => (calculate_launch_collision_risk N H Vrel A T C).risk) =
      fun T => 1 - Real.exp
        (-(N / ((4 / 3) * Real.pi * ((6371 + H) ^ 3 - (6371 : ℝ) ^ 3)) * Vrel *
          (A / 1000000) * T)) := by
    funext T
    rw [modeB_dict_eq N H Vrel A T C hH]
    rfl
  rw [hfun]
  constructor
  · intro a b hab
    have hlt : -(N / ((4 / 3) * Real.pi * ((6371 + H) ^ 3 - (6371 : ℝ) ^ 3)) * Vrel *
          (A / 1000000) * b) <
        -(N / ((4 / 3) * Real.pi * ((6371 + H) ^ 3 - (6371 : ℝ) ^ 3)) * Vrel *
          (A / 1000000) * a) :=
      neg_lt_neg (mul_lt_mul_of_pos_left hab hcpos)
    exact sub_lt_sub_left (Real.exp_lt_exp.mpr hlt) 1
  · have h1 : Filter.Tendsto
        (fun T : ℝ => N / ((4 / 3) * Real.pi * ((6371 + H) ^ 3 - (6371 : ℝ) ^ 3)) *
          Vrel * (A / 1000000) * T) Filter.atTop Filter.atTop :=
      Filter.Tendsto.const_mul_atTop hcpos Filter.tendsto_id
    have h2 := Filter.tendsto_neg_atTop_atBot.comp h1
    have h3 := Real.tendsto_exp_atBot.comp h2
    have h4 := Filter.Tendsto.const_sub (1 : ℝ) h3
    simpa using h4

/-- C8 witness: monotonicity and the limit at the unit parameter choice. -/
theorem launch_risk_monotone_in_duration_witness :
    StrictMono (fun T => (calculate_launch_collision_risk 1 1 1 1 T 1).risk) ∧
    Filter.Tendsto (fun T => (calculate_launch_collision_risk 1 1 1 1 T 1).risk)
      Filter.atTop (nhds 1) :=
  launch_risk_monotone_in_duration 1 1 1 1 1 (by norm_num) (by norm_num)
    (by norm_num) (by norm_num)

/-! ## Helper lemmas: the congestion map -/

/-- Dict update at the looked-up key: the stored cell is the step of the
previous cell (or of a fresh cell when the key is new). -/
lemma lookup_insertSample_self (m : CongestionMap) (k : CellKey) (incl mm : ℝ) :
    lookupCell k (insertSample m k incl mm) =
      some (stepCell ((lookupCell k m).getD initCell) incl mm) := by
  induction m with
  | nil => simp [insertSample, lookupCell]
  | cons e rest ih =>
    obtain ⟨k0, c0⟩ := e
    by_cases h : k0 = k
    · subst h; simp [insertSample, lookupCell]
    · simp [insertSample, lookupCell, h, ih]

/-- Dict update at a different key leaves the looked-up entry unchanged. -/
lemma lookup_insertSample_ne (m : CongestionMap) (k q : CellKey) (incl mm : ℝ)
    (h : q ≠ k) :
    lookupCell q (insertSample m k incl mm) = lookupCell q m := by
  induction m with
  | nil =>
    have hk : ¬k = q := fun hk => h hk.symm
    simp [insertSample, lookupCell, hk]
  | cons e rest ih =>
    obtain ⟨k0, c0⟩ := e
    by_cases h0 : k0 = k
    · subst h0
      have hk : ¬k0 = q := fun hk => h hk.symm
      simp [insertSample, lookupCell, hk]
    · simp only [insertSample, if_neg h0]
      by_cases hq : k0 = q
      · simp [lookupCell, hq]
      · simp [lookupCell, hq, ih]

/-- Each dict update adds exactly one to the total of the counts. -/
lemma sumCounts_insertSample (m : CongestionMap) (k : CellKey) (incl mm : ℝ) :
    sumCounts (insertSample m k incl mm) = sumCounts m + 1 := by
  induction m with
  | nil => simp [insertSample, sumCounts, stepCell, initCell]
  | cons e rest ih =>
    obtain ⟨k0, c0⟩ := e
    by_cases h : k0 = k
    · subst h
      simp [insertSample, sumCounts, stepCell]
      omega
    · simp [insertSample, sumCounts, h] at ih ⊢
      omega

/-- One step of the aggregation loop, as an equation on buildMap. -/
lemma buildMap_cons (minF maxF minI maxI : ℝ) (s : SatData) (t : List SatData)
    (m0 : CongestionMap) :
    buildMap minF maxF minI maxI (s :: t) m0 =
      buildMap minF maxF minI maxI t
        (match recordInfo minF maxF minI maxI s with
         | none => m0
         | some (mm, incl) => insertSample m0 (cellKey mm incl) incl mm) := rfl

/-- Total count of the built map: the accumulator's total plus the number of
kept samples. -/
lemma buildMap_sumCounts (minF maxF minI maxI : ℝ) :
    ∀ (recs : List SatData) (m0 : CongestionMap),
      sumCounts (buildMap minF maxF minI maxI recs m0) =
        sumCounts m0 + (keptInfos minF maxF minI maxI recs).length := by
  intro recs
  induction recs with
  | nil => intro m0; simp [buildMap, keptInfos]
  | cons s t ih =>
    intro m0
    rw [buildMap_cons]
    cases hri : recordInfo minF maxF minI maxI s with
    | none =>
      rw [ih]
      simp [keptInfos, List.filterMap_cons, hri]
    | some p =>
      obtain ⟨mm, incl⟩ := p
      rw [ih]
      simp only [keptInfos, List.filterMap_cons, hri]
      rw [sumCounts_insertSample]
      simp [keptInfos]
      omega

/-- Counting kept elements: the length of a filterMap is the length of the
filter by isSome. -/
lemma length_filterMap_eq_length_filter {α β : Type} (f : α → Option β) :
    ∀ l : List α, (l.filterMap f).length = (l.filter fun a => (f a).isSome).length := by
  intro l
  induction l with
  | nil => simp
  | cons a t ih =>
    cases hfa : f a with
    | none => simp [List.filterMap_cons, List.filter_cons, hfa, ih]
    | some b => simp [List.filterMap_cons, List.filter_cons, hfa, ih]

/-- Lookup in the built map replays exactly the updates of the kept samples
whose cell key is the looked-up key. -/
lemma lookup_buildMap (minF maxF minI maxI : ℝ) (k : CellKey) :
    ∀ (recs : List SatData) (m0 : CongestionMap),
      lookupCell k (buildMap minF maxF minI maxI recs m0) =
        applyHits (lookupCell k m0)
          ((keptInfos minF maxF minI maxI recs).filter fun p => cellKey p.1 p.2 = k) := by
  intro recs
  induction recs with
  | nil => intro m0; simp [buildMap, keptInfos, applyHits]
  | cons s t ih =>
    intro m0
    rw [buildMap_cons]
    cases hri : recordInfo minF maxF minI maxI s with
    | none =>
      rw [ih]
      simp [keptInfos, List.filterMap_cons, hri]
    | some p =>
      obtain ⟨mm, incl⟩ := p
      rw [ih]
      dsimp only
      by_cases hk : cellKey mm incl = k
      · subst hk
        rw [lookup_insertSample_self]
        simp [keptInfos, List.filterMap_cons, hri, List.filter_cons, applyHits]
      · rw [lookup_insertSample_ne _ _ _ _ _ fun h => hk h.symm]
        simp [keptInfos, List.filterMap_cons, hri, List.filter_cons, hk]

/-- The freshly initialised cell satisfies the statistics invariant for the
empty sample list. -/
lemma meanInv_init : MeanInv initCell [] := by
  simp [MeanInv, initCell]

/-- The incremental-mean update of the source preserves the statistics
invariant, extending the sample list by the folded sample. -/
lemma stepCell_meanInv {c : CellData} {L : List (ℝ × ℝ)} (h : MeanInv c L)
    (mm incl : ℝ) :
    MeanInv (stepCell c incl mm) (L ++ [(mm, incl)]) := by
  obtain ⟨hc, hi, hm⟩ := h
  have hne : ((c.count : ℝ) + 1) ≠ 0 := by positivity
  refine ⟨by simp [stepCell, hc], ?_, ?_⟩
  · show (c.avg_inclination * (c.count : ℝ) + incl) / ((c.count + 1 : ℕ) : ℝ) *
        ((c.count + 1 : ℕ) : ℝ) = _
    push_cast
    rw [div_mul_cancel₀ _ hne, hi]
    simp
  · show (c.avg_mean_motion * (c.count : ℝ) + mm) / ((c.count + 1 : ℕ) : ℝ) *
        ((c.count + 1 : ℕ) : ℝ) = _
    push_cast
    rw [div_mul_cancel₀ _ hne, hm]
    simp

/-- Replaying hits preserves the statistics invariant. -/
lemma applyHits_meanInv :
    ∀ (H : List (ℝ × ℝ)) (o : Option CellData) (L : List (ℝ × ℝ)) (c : CellData),
      MeanInv (o.getD initCell) L → applyHits o H = some c → MeanInv c (L ++ H) := by
  intro H
  induction H with
  | nil =>
    intro o L c hInv hEq
    cases o with
    | none => simp [applyHits] at hEq
    | some c0 =>
      rw [applyHits] at hEq
      cases hEq
      simpa using hInv
  | cons p t ih =>
    intro o L c hInv hEq
    rw [applyHits] at hEq
    have h2 : MeanInv ((some (stepCell (o.getD initCell) p.2 p.1)).getD initCell)
        (L ++ [(p.1, p.2)]) := by
      simpa using stepCell_meanInv hInv p.1 p.2
    have h3 := ih _ _ _ h2 hEq
    simpa [List.append_assoc] using h3

/-- Replaying a nonempty hit list from a present accumulator always yields a
cell. -/
lemma applyHits_some_isSome :
    ∀ (t : List (ℝ × ℝ)) (c : CellData), ∃ d, applyHits (some c) t = some d := by
  intro t
  induction t with
  | nil => intro c; exact ⟨c, rfl⟩
  | cons p r ih => intro c; simpa [applyHits] using ih _

/-- Canonical value of a cell built from scratch out of a nonempty hit list:
the count is the number of hits and the running means are the arithmetic
means. -/
lemma applyHits_none_canonical (H : List (ℝ × ℝ)) (hne : H ≠ []) :
    applyHits none H =
      some ⟨H.length, ((H.map Prod.snd).sum / (H.length : ℝ)),
        ((H.map Prod.fst).sum / (H.length : ℝ))⟩ := by
  obtain ⟨p, t, rfl⟩ := List.exists_cons_of_ne_nil hne
  obtain ⟨d, hd⟩ := applyHits_some_isSome t (stepCell (Option.getD none initCell) p.2 p.1)
  have hEq : applyHits none (p :: t) = some d := by
    rw [applyHits]; exact hd
  have hInv : MeanInv d (p :: t) := by
    simpa using applyHits_meanInv (p :: t) none [] d (by simpa using meanInv_init) hEq
  have hlen : (((p :: t).length : ℕ) : ℝ) ≠ 0 := by
    have hpos : (0 : ℝ) < ((p :: t).length : ℝ) := by
      exact_mod_cast Nat.succ_pos t.length
    exact ne_of_gt hpos
  obtain ⟨cnt, ai, am⟩ := d
  obtain ⟨hc, hiV, hmV⟩ := hInv
  rw [hEq]
  simp only [Option.some.injEq, CellData.mk.injEq]
  refine ⟨hc, ?_, ?_⟩
  · rw [eq_div_iff hlen, ← hc]; exact hiV
  · rw [eq_div_iff hlen, ← hc]; exact hmV

/-- Lookup in the aggregator's result, phrased through the assigned samples of
the looked-up key. -/
lemma lookup_aggregate (recs : List SatData)
    (min_a max_a lo hi : ℝ) (k : CellKey) :
    lookupCell k (calculate_orbit_congestion_by_altitude recs min_a max_a lo hi) =
      applyHits none (assignedInfos recs min_a max_a lo hi k) := by
  rw [calculate_orbit_congestion_by_altitude, lookup_buildMap]
  simp [lookupCell, assignedInfos]

/-- Aggregation ignores records; it returns the accumulator whenever every
record of the batch is skipped or filtered out. -/
lemma buildMap_id_of_none (minF maxF minI maxI : ℝ) :
    ∀ (recs : List SatData) (m0 : CongestionMap),
      (∀ s ∈ recs, recordInfo minF maxF minI maxI s = none) →
      buildMap minF maxF minI maxI recs m0 = m0 := by
  intro recs
  induction recs with
  | nil => intro m0 _; rfl
  | cons s t ih =>
    intro m0 hall
    rw [buildMap_cons, hall s (by simp)]
    exact ih m0 fun r hr => hall r (by simp [hr])

/-- No record passes an inverted (negative-span) mean-motion window. -/
lemma recordInfo_none_of_inverted (minF maxF lo hi : ℝ) (h : maxF < minF)
    (s : SatData) : recordInfo minF maxF lo hi s = none := by
  rw [recordInfo]
  by_cases hf : strFalsy s.line1 ∨ strFalsy s.line2
  · rw [if_pos hf]
  · rw [if_neg hf]
    cases s.decoded with
    | none => rfl
    | some p =>
      obtain ⟨mm, incl⟩ := p
      dsimp only
      rw [if_neg]
      rintro ⟨h1, h2⟩
      linarith

/-- No record whose decoded inclination lies in [0, 180] passes an inclination
window entirely outside [0, 180]. -/
lemma recordInfo_none_of_outside_inclination (minF maxF lo hi : ℝ)
    (hwin : hi < 0 ∨ 180 < lo) (s : SatData)
    (hdec : ∀ mm incl : ℝ, s.decoded = some (mm, incl) → 0 ≤ incl ∧ incl ≤ 180) :
    recordInfo minF maxF lo hi s = none := by
  rw [recordInfo]
  by_cases hf : strFalsy s.line1 ∨ strFalsy s.line2
  · rw [if_pos hf]
  · rw [if_neg hf]
    cases hd : s.decoded with
    | none => rfl
    | some p =>
      obtain ⟨mm, incl⟩ := p
      obtain ⟨hlo, hhi⟩ := hdec mm incl hd
      dsimp only
      by_cases hmm : minF ≤ mm ∧ mm ≤ maxF
      · rw [if_pos hmm, if_neg]
        rintro ⟨h1, h2⟩
        rcases hwin with hw | hw
        · linarith
        · linarith
      · rw [if_neg hmm]

/-! ## Claim C3: total count versus kept records -/

/-- C3: the sum of the count fields over all cells of the returned map equals
the number of records kept by the aggregator's filters (the filtered_records
list the contract describes).  The source returns only the map, not the
documented (map, filtered_records) pair: this theorem proves the counting
half of the claim against the kept-record list the spec says is returned. -/
theorem sum_counts_eq_kept_length (recs : List SatData)
    (min_a max_a lo hi : ℝ) :
    sumCounts (calculate_orbit_congestion_by_altitude recs min_a max_a lo hi) =
      (keptRecords recs min_a max_a lo hi).length := by
  rw [calculate_orbit_congestion_by_altitude, buildMap_sumCounts, keptRecords,
    ← length_filterMap_eq_length_filter]
  simp [sumCounts, keptInfos]

/-! ## Claim C5: per-cell statistics and order independence -/

/-- C5: every cell of the returned map has count at least 1, its count is the
number of samples assigned to its key, its running means are the arithmetic
means of the assigned inclinations and mean motions, and aggregating any
permutation of the batch gives the same map entries cell by cell. -/
theorem cell_stats_are_arithmetic_means :
    (∀ (recs : List SatData) (min_a max_a lo hi : ℝ) (k : CellKey) (cell : CellData),
      lookupCell k (calculate_orbit_congestion_by_altitude recs min_a max_a lo hi) =
        some cell →
      1 ≤ cell.count ∧
      cell.count = (assignedInfos recs min_a max_a lo hi k).length ∧
      cell.avg_inclination =
        ((assignedInfos recs min_a max_a lo hi k).map Prod.snd).sum /
          ((assignedInfos recs min_a max_a lo hi k).length : ℝ) ∧
      cell.avg_mean_motion =
        ((assignedInfos recs min_a max_a lo hi k).map Prod.fst).sum /
          ((assignedInfos recs min_a max_a lo hi k).length : ℝ)) ∧
    (∀ (recs1 recs2 : List SatData) (min_a max_a lo hi : ℝ),
      recs1.Perm recs2 →
      ∀ k : CellKey,
        lookupCell k (calculate_orbit_congestion_by_altitude recs1 min_a max_a lo hi) =
        lookupCell k (calculate_orbit_congestion_by_altitude recs2 min_a max_a lo hi)) := by
  constructor
  · intro recs min_a max_a lo hi k cell hcell
    rw [lookup_aggregate] at hcell
    cases hH : assignedInfos recs min_a max_a lo hi k with
    | nil => rw [hH] at hcell; simp [applyHits] at hcell
    | cons p t =>
      rw [hH, applyHits_none_canonical (p :: t) (by simp)] at hcell
      cases hcell
      exact ⟨by simp, rfl, rfl, rfl⟩
  · intro recs1 recs2 min_a max_a lo hi hperm k
    rw [lookup_aggregate, lookup_aggregate]
    have hp : (assignedInfos recs1 min_a max_a lo hi k).Perm
        (assignedInfos recs2 min_a max_a lo hi k) :=
      (hperm.filterMap _).filter _
    by_cases h1 : assignedInfos recs1 min_a max_a lo hi k = []
    · have h2 : assignedInfos recs2 min_a max_a lo hi k = [] :=
        (h1 ▸ hp).symm.eq_nil
      rw [h1, h2]
    · have h2 : assignedInfos recs2 min_a max_a lo hi k ≠ [] := by
        intro h2
        exact h1 (h2 ▸ hp.symm).symm.eq_nil
      rw [applyHits_none_canonical _ h1, applyHits_none_canonical _ h2,
        hp.length_eq, (hp.map Prod.snd).sum_eq, (hp.map Prod.fst).sum_eq]

/-- C5 witness: a concrete one-record batch whose single cell has count 1 and
means equal to the record's own sample. -/
theorem cell_stats_are_arithmetic_means_witness :
    1 ≤ (stepCell initCell 45 0).count ∧
    (stepCell initCell 45 0).count =
      (assignedInfos [⟨some "SAT", some "L1", some "L2", some (0, 45)⟩]
        (-2) (-1) 0 90 (cellKey 0 45)).length ∧
    (stepCell initCell 45 0).avg_inclination =
      ((assignedInfos [⟨some "SAT", some "L1", some "L2", some (0, 45)⟩]
          (-2) (-1) 0 90 (cellKey 0 45)).map Prod.snd).sum /
        ((assignedInfos [⟨some "SAT", some "L1", some "L2", some (0, 45)⟩]
          (-2) (-1) 0 90 (cellKey 0 45)).length : ℝ) ∧
    (stepCell initCell 45 0).avg_mean_motion =
      ((assignedInfos [⟨some "SAT", some "L1", some "L2", some (0, 45)⟩]
          (-2) (-1) 0 90 (cellKey 0 45)).map Prod.fst).sum /
        ((assignedInfos [⟨some "SAT", some "L1", some "L2", some (0, 45)⟩]
          (-2) (-1) 0 90 (cellKey 0 45)).length : ℝ) :=
  cell_stats_are_arithmetic_means.1
    [⟨some "SAT", some "L1", some "L2", some (0, 45)⟩] (-2) (-1) 0 90
    (cellKey 0 45) (stepCell initCell 45 0) (by
      have hb1 : orbit_altitude_to_mean_motion (-1) = 0 := by
        rw [orbit_altitude_to_mean_motion, if_pos (by norm_num)]
      have hb2 : orbit_altitude_to_mean_motion (-2) = 0 := by
        rw [orbit_altitude_to_mean_motion, if_pos (by norm_num)]
      rw [calculate_orbit_congestion_by_altitude, hb1, hb2, buildMap_cons]
      rw [show recordInfo 0 0 0 90 ⟨some "SAT", some "L1", some "L2", some (0, 45)⟩ =
            some (0, 45) by
          rw [recordInfo, if_neg (by simp [strFalsy])]
          dsimp only
          rw [if_pos (by norm_num), if_pos (by norm_num)]]
      rw [show buildMap 0 0 0 90 ([] : List SatData) = id from funext fun m => rfl]
      simp [insertSample, lookupCell])

/-! ## Claim C9: windows that empty the map -/

/-- C9 counterexample: the altitude window from -1 to -1 km derives the
mean-motion window [0, 0] of zero span, and a record whose decoded mean
motion is exactly 0 still lands in the map, so a zero-span window does not
always yield an empty map as the claim states. -/
theorem zero_span_window_nonempty_map :
    calculate_orbit_congestion_by_altitude
      [⟨some "SAT", some "L1", some "L2", some (0, 45)⟩] (-1) (-1) 0 90 ≠ [] := by
  have hb : orbit_altitude_to_mean_motion (-1) = 0 := by
    rw [orbit_altitude_to_mean_motion, if_pos (by norm_num)]
  rw [calculate_orbit_congestion_by_altitude, hb, buildMap_cons]
  rw [show recordInfo 0 0 0 90 ⟨some "SAT", some "L1", some "L2", some (0, 45)⟩ =
        some (0, 45) by
      rw [recordInfo, if_neg (by simp [strFalsy])]
      dsimp only
      rw [if_pos (by norm_num), if_pos (by norm_num)]]
  rw [show buildMap 0 0 0 90 ([] : List SatData) = id from funext fun m => rfl]
  simp [insertSample]

/-- C9 amended: an empty batch yields the empty map; an altitude window whose
derived mean-motion span is strictly negative (upper filter below lower
filter) yields the empty map; and an inclination window lying entirely
outside [0, 180] yields the empty map provided every decoded inclination
lies in [0, 180].  (A zero-span window can be hit exactly, see the
counterexample.) -/
theorem empty_map_edge_cases :
    (∀ min_a max_a lo hi : ℝ,
      calculate_orbit_congestion_by_altitude [] min_a max_a lo hi = []) ∧
    (∀ (recs : List SatData) (min_a max_a lo hi : ℝ),
      orbit_altitude_to_mean_motion min_a < orbit_altitude_to_mean_motion max_a →
      calculate_orbit_congestion_by_altitude recs min_a max_a lo hi = []) ∧
    (∀ (recs : List SatData) (min_a max_a lo hi : ℝ),
      (hi < 0 ∨ 180 < lo) →
      (∀ s ∈ recs, ∀ mm incl : ℝ, s.decoded = some (mm, incl) →
        0 ≤ incl ∧ incl ≤ 180) →
      calculate_orbit_congestion_by_altitude recs min_a max_a lo hi = []) := by
  refine ⟨fun _ _ _ _ => rfl, fun recs min_a max_a lo hi hspan => ?_,
    fun recs min_a max_a lo hi hwin hdec => ?_⟩
  · rw [calculate_orbit_congestion_by_altitude]
    exact buildMap_id_of_none _ _ _ _ recs [] fun s _ =>
      recordInfo_none_of_inverted _ _ _ _ hspan s
  · rw [calculate_orbit_congestion_by_altitude]
    exact buildMap_id_of_none _ _ _ _ recs [] fun s hs =>
      recordInfo_none_of_outside_inclination _ _ _ _ hwin s
        fun mm incl hd => hdec s hs mm incl hd

/-- C9 witness: a negative-span altitude window (minimum altitude -1 maps to
mean-motion bound 0, below the bound of altitude 300) and an inclination
window above 180 degrees, each emptying the map on a concrete batch. -/
theorem empty_map_edge_cases_witness :
    calculate_orbit_congestion_by_altitude
      [⟨some "SAT", some "L1", some "L2", some (15, 45)⟩] (-1) 300 0 180 = [] ∧
    calculate_orbit_congestion_by_altitude
      [⟨some "SAT", some "L1", some "L2", some (15, 45)⟩] 300 500 200 250 = [] :=
  ⟨empty_map_edge_cases.2.1 [⟨some "SAT", some "L1", some "L2", some (15, 45)⟩]
      (-1) 300 0 180 (by
        have hb : orbit_altitude_to_mean_motion (-1) = 0 := by
          rw [orbit_altitude_to_mean_motion, if_pos (by norm_num)]
        rw [hb]
        exact orbit_converter_pos (by norm_num)),
   empty_map_edge_cases.2.2 [⟨some "SAT", some "L1", some "L2", some (15, 45)⟩]
      300 500 200 250 (Or.inr (by norm_num)) (by
        rintro s hs mm incl hd
        simp only [List.mem_singleton] at hs
        subst hs
        simp only [Option.some.injEq, Prod.mk.injEq] at hd
        obtain ⟨h1, h2⟩ := hd
        subst h2
        norm_num)⟩

end NASASA
